import Mathlib

/-!
Verification of the node-lifecycle orchestrator of this minikube fork.

The Go source is shallowly embedded: pure computations become Lean
functions, calls to external collaborators (libmachine API, OCI engine,
viper flags, the download package) become explicit behaviour parameters,
and the goroutine-based create-vs-timeout race becomes a function of the
creation call's (possibly absent) finishing time.  Errors built with
`fmt.Errorf` / `github.com/pkg/errors` are embedded as an inductive type;
`errors.Wrap`/`Wrapf` return nil on a nil cause, which the embedding
reproduces exactly (this turns out to matter).
-/

namespace Minikube

/-- Embedding of Go errors as produced by `fmt.Errorf` (a plain message)
and `github.com/pkg/errors.Wrap`/`Wrapf` (a context message around a
cause). -/
inductive GoError where
  | errorf (msg : String) : GoError
  | wrapped (context : String) (cause : GoError) : GoError
  deriving Repr, DecidableEq

/-- `errors.Wrap(err, msg)` from `github.com/pkg/errors`: returns nil when
`err` is nil, otherwise annotates the cause with `msg`.  `Wrapf` behaves
the same way after formatting. -/
def wrap (msg : String) : Option GoError → Option GoError
  | none => none
  | some e => some (.wrapped msg e)

@[simp] theorem wrap_none (msg : String) : wrap msg none = none := rfl

@[simp] theorem wrap_some (msg : String) (e : GoError) :
    wrap msg (some e) = some (.wrapped msg e) := rfl

/-! ## Data model (pkg/minikube/config, libmachine engine options) -/

/-- The fields of `config.ClusterConfig` read by the embedded functions
(`machine.StartHost`, `machine.engineOptions`, `machine.createHost`,
`node.beginDownloadKicArtifacts`). -/
structure ClusterConfig where
  name : String
  driver : String
  dockerEnv : List String
  insecureRegistry : List String
  registryMirror : List String
  dockerOpt : List String
  kicBaseImage : String
  deriving Repr, DecidableEq

/-- The fields of `config.Node` the orchestrator reads. -/
structure Node where
  name : String
  controlPlane : Bool
  deriving Repr, DecidableEq

/-- `engine.Options` from libmachine, as populated by
`machine.engineOptions`. -/
structure EngineOptions where
  env : List String
  insecureRegistry : List String
  registryMirror : List String
  arbitraryFlags : List String
  installURL : String
  deriving Repr, DecidableEq

/-- `constants.DefaultServiceCIDR`.  The constants package is not part of
the provided sources; the value is the project's documented default
service CIDR and none of the claims depend on the literal. -/
def DefaultServiceCIDR : String := "10.96.0.0/12"

/-- `drivers.DefaultEngineInstallURL` from libmachine (external). -/
def DefaultEngineInstallURL : String := "https://get.docker.com"

/-! ## Environment deduplication (machine.engineOptions, loop at
part_001 lines 107-115)

The Go loop walks `dockerEnv` in order, keeps a `seen` set, and appends
each not-yet-seen entry to `uniqueEnvs`.  The embedding carries `seen` as
a list used only for membership. -/

/-- The dedup loop of `engineOptions` with the `seen` set made explicit:
entries already in `seen` are dropped, new ones are kept and recorded. -/
def dedupSeen : List String → List String → List String
  | [], _ => []
  | e :: rest, seen =>
      if e ∈ seen then dedupSeen rest seen
      else e :: dedupSeen rest (e :: seen)

/-- `uniqueEnvs` as computed by `engineOptions`: the dedup loop started
with an empty `seen` map. -/
def dedup (xs : List String) : List String := dedupSeen xs []

/-- `machine.engineOptions` (part_001 lines 101-125).  `proxyEnv` stands
for the result of the external call `proxy.SetDockerEnv()`; the user
config's `DockerEnv` is appended to it and the concatenation is
deduplicated. -/
def engineOptions (proxyEnv : List String) (cfg : ClusterConfig) : EngineOptions :=
  { env := dedup (proxyEnv ++ cfg.dockerEnv)
    insecureRegistry := DefaultServiceCIDR :: cfg.insecureRegistry
    registryMirror := cfg.registryMirror
    arbitraryFlags := cfg.dockerOpt
    installURL := DefaultEngineInstallURL }

/-! Basic lemmas about the dedup loop. -/

theorem dedupSeen_sublist (xs : List String) :
    ∀ seen, (dedupSeen xs seen).Sublist xs := by
  induction xs with
  | nil => intro seen; simp [dedupSeen]
  | cons e rest ih =>
      intro seen
      simp only [dedupSeen]
      by_cases h : e ∈ seen
      · simp only [h, if_true]
        exact (ih seen).trans (List.sublist_cons_self e rest)
      · simp only [h, if_false]
        exact (ih (e :: seen)).cons₂ e

theorem mem_dedupSeen {a : String} {xs : List String} :
    ∀ {seen}, a ∈ dedupSeen xs seen → a ∈ xs ∧ a ∉ seen := by
  induction xs with
  | nil => intro seen h; simp [dedupSeen] at h
  | cons e rest ih =>
      intro seen h
      simp only [dedupSeen] at h
      by_cases he : e ∈ seen
      · simp only [he, if_true] at h
        rcases ih h with ⟨h1, h2⟩
        exact ⟨List.mem_cons_of_mem e h1, h2⟩
      · simp only [he, if_false, List.mem_cons] at h
        rcases h with rfl | h
        · exact ⟨List.mem_cons_self a rest, he⟩
        · rcases ih h with ⟨h1, h2⟩
          simp only [List.mem_cons] at h2
          push_neg at h2
          exact ⟨List.mem_cons_of_mem e h1, h2.2⟩

theorem dedupSeen_nodup (xs : List String) :
    ∀ seen, (dedupSeen xs seen).Nodup := by
  induction xs with
  | nil => intro seen; simp [dedupSeen]
  | cons e rest ih =>
      intro seen
      simp only [dedupSeen]
      by_cases he : e ∈ seen
      · simp only [he, if_true]; exact ih seen
      · simp only [he, if_false]
        refine List.nodup_cons.mpr ⟨?_, ih (e :: seen)⟩
        intro hmem
        exact (mem_dedupSeen hmem).2 (List.mem_cons_self e seen)

/-- Running the dedup loop over an already-deduplicated list (one with no
duplicates and no overlap with `seen`) is the identity. -/
theorem dedupSeen_of_nodup (ys : List String) :
    ∀ seen, ys.Nodup → (∀ a ∈ ys, a ∉ seen) → dedupSeen ys seen = ys := by
  induction ys with
  | nil => intro seen _ _; simp [dedupSeen]
  | cons y rest ih =>
      intro seen hnd hdisj
      have hy : y ∉ seen := hdisj y (List.mem_cons_self y rest)
      simp only [dedupSeen, hy, if_false]
      have hnd' := List.nodup_cons.mp hnd
      refine congrArg (y :: ·) (ih (y :: seen) hnd'.2 ?_)
      intro a ha
      simp only [List.mem_cons]
      push_neg
      refine ⟨?_, hdisj a (List.mem_cons_of_mem y ha)⟩
      intro rfl_eq
      exact hnd'.1 (rfl_eq ▸ ha)

theorem dedup_idempotent (xs : List String) : dedup (dedup xs) = dedup xs := by
  unfold dedup
  apply dedupSeen_of_nodup
  · exact dedupSeen_nodup xs []
  · intro a _ h
    simp at h

theorem dedup_sublist (xs : List String) : (dedup xs).Sublist xs :=
  dedupSeen_sublist xs []

theorem dedup_length_le (xs : List String) : (dedup xs).length ≤ xs.length :=
  (dedup_sublist xs).length_le

theorem mem_dedupSeen_of_mem {a : String} {xs : List String} :
    ∀ {seen}, a ∈ xs → a ∉ seen → a ∈ dedupSeen xs seen := by
  induction xs with
  | nil => intro seen h _; simp at h
  | cons e rest ih =>
      intro seen hmem hseen
      simp only [dedupSeen]
      by_cases hae : a = e
      · subst hae
        simp only [hseen, if_false]
        exact List.mem_cons_self a _
      · have harest : a ∈ rest := by
          rcases List.mem_cons.mp hmem with h | h
          · exact absurd h hae
          · exact h
        by_cases he : e ∈ seen
        · simp only [he, if_true]
          exact ih harest hseen
        · simp only [he, if_false]
          refine List.mem_cons_of_mem e (ih harest ?_)
          simp only [List.mem_cons]
          push_neg
          exact ⟨hae, hseen⟩

/-- Only the membership of the `seen` set matters to the dedup loop. -/
theorem dedupSeen_congr (xs : List String) :
    ∀ seen seen2, (∀ a, a ∈ seen ↔ a ∈ seen2) →
      dedupSeen xs seen = dedupSeen xs seen2 := by
  induction xs with
  | nil => intro _ _ _; rfl
  | cons e rest ih =>
      intro seen seen2 h
      simp only [dedupSeen]
      by_cases he : e ∈ seen
      · rw [if_pos he, if_pos ((h e).mp he)]
        exact ih seen seen2 h
      · rw [if_neg he, if_neg (fun hc => he ((h e).mpr hc))]
        refine congrArg (e :: ·) (ih _ _ ?_)
        intro a
        simp only [List.mem_cons]
        rw [h a]

/-- Adding `x` to the `seen` set is the same as filtering `x` out of the
loop's output. -/
theorem dedupSeen_cons_seen (xs : List String) :
    ∀ seen x, x ∉ seen →
      dedupSeen xs (x :: seen) =
        (dedupSeen xs seen).filter (fun a => decide (a ≠ x)) := by
  induction xs with
  | nil => intro _ _ _; rfl
  | cons e rest ih =>
      intro seen x hx
      have hid : ∀ l : List String, (∀ a ∈ l, a ≠ x) →
          l.filter (fun a => decide (a ≠ x)) = l := by
        intro l h
        refine List.filter_eq_self.mpr ?_
        intro a ha
        simpa using h a ha
      simp only [dedupSeen]
      by_cases he : e ∈ seen
      · rw [if_pos (List.mem_cons_of_mem x he), if_pos he]
        exact ih seen x hx
      · by_cases hex : e = x
        · subst hex
          rw [if_pos (List.mem_cons_self e seen), if_neg he]
          rw [List.filter_cons, if_neg (by simp)]
          refine (hid (dedupSeen rest (e :: seen)) ?_).symm
          intro a ha
          have hmm := (mem_dedupSeen ha).2
          simp only [List.mem_cons] at hmm
          push_neg at hmm
          exact hmm.1
        · have hne : e ∉ x :: seen := by
            simp only [List.mem_cons]
            push_neg
            exact ⟨hex, he⟩
          rw [if_neg hne, if_neg he, List.filter_cons, if_pos (by simp [hex])]
          refine congrArg (e :: ·) ?_
          have hswap : dedupSeen rest (e :: x :: seen) =
              dedupSeen rest (x :: e :: seen) := by
            refine dedupSeen_congr rest _ _ ?_
            intro a
            simp only [List.mem_cons]
            tauto
          rw [hswap]
          refine ih (e :: seen) x ?_
          simp only [List.mem_cons]
          push_neg
          exact ⟨fun hxe => hex hxe.symm, hx⟩

/-- The dedup loop keeps the first occurrence of each entry: the head of
the input survives, and exactly its later duplicates are removed from the
deduplication of the tail. -/
theorem dedup_cons (x : String) (xs : List String) :
    dedup (x :: xs) = x :: (dedup xs).filter (fun a => decide (a ≠ x)) := by
  show dedupSeen (x :: xs) [] = _
  simp only [dedupSeen, List.not_mem_nil, if_false]
  exact congrArg (x :: ·) (dedupSeen_cons_seen xs [] x (List.not_mem_nil x))

theorem mem_dedup {a : String} {xs : List String} : a ∈ dedup xs ↔ a ∈ xs := by
  constructor
  · intro h
    exact (mem_dedupSeen h).1
  · intro h
    exact mem_dedupSeen_of_mem h (List.not_mem_nil a)

/-! ## Machines lock (machine.acquireMachinesLock, part_001 lines 252-265) -/

/-- `mutex.Spec` from juju/mutex as configured by the code: the on-disk
path the advisory lock is keyed by, and the acquisition timeout in
seconds. -/
structure MutexSpec where
  path : String
  timeoutSeconds : Nat
  deriving Repr, DecidableEq

/-- Modelled from the spec: `lock.PathMutexSpec` (pkg/util/lock, not in
the provided sources) builds an on-disk advisory lock specification keyed
by the given path, with a default timeout the caller may override. -/
def PathMutexSpec (path : String) : MutexSpec :=
  { path := path, timeoutSeconds := 60 }

/-- `driver.MachineName` (pkg/minikube/driver, not in the provided
sources).  Modelled from the spec: a deterministic identifier derived
from the cluster name and the node name. -/
def MachineName (cfg : ClusterConfig) (n : Node) : String :=
  if n.controlPlane then cfg.name else cfg.name ++ "-" ++ n.name

/-- The lock specification built by `acquireMachinesLock` for a machine
`name`: `lock.PathMutexSpec(filepath.Join(localpath.MiniPath(), "machines"))`
with the timeout raised to 15 minutes.  `miniPath` stands for the external
`localpath.MiniPath()`.  The `name` argument is received (and logged) but
does not flow into the spec. -/
def acquireMachinesLockSpec (miniPath : String) (name : String) : MutexSpec :=
  let _ := name
  let spec := PathMutexSpec (miniPath ++ "/machines")
  { spec with timeoutSeconds := 15 * 60 }

/-! ## Create-vs-timeout race (machine.timedCreateHost, part_001 lines
192-217)

The Go function races `api.Create(h)` against a `time.Sleep(t)` timer and
takes whichever channel fires first.  The embedding replaces the two
goroutines by the creation call's behaviour: `none` for a call that never
returns, `some (d, r)` for a call finishing after `d` seconds with result
`r`.  The timer fires at `t` seconds; a creation finishing strictly
earlier wins the select, otherwise the timer does. -/

/-- The timeout error produced by `timedCreateHost`'s timer branch
(`fmt.Errorf("create host timed out in %f seconds", t.Seconds())`). -/
def createTimeoutErr (t : Nat) : GoError :=
  .errorf ("create host timed out in " ++ toString t ++ " seconds")

/-- `machine.timedCreateHost` with the race made explicit.  `t` is the
ceiling in seconds; `create` is the behaviour of `api.Create(h)`. -/
def timedCreateHost (t : Nat) (create : Option (Nat × Option GoError)) :
    Option GoError :=
  match create with
  | none => some (createTimeoutErr t)
  | some (d, r) =>
      if d < t then wrap "create" r
      else some (createTimeoutErr t)

/-- The ceiling `createHost` passes to `timedCreateHost`
(`4*time.Minute`), in seconds. -/
def createHostTimeout : Nat := 4 * 60

/-! ## Host creation (machine.createHost, part_001 lines 127-190) -/

/-- The slice of a libmachine `host.Host` the orchestrator touches:
certificate/store paths and the engine options it installs before
creation. -/
structure Host where
  name : String
  certDir : String
  storePath : String
  engineOpts : Option EngineOptions
  deriving Repr, DecidableEq

/-- Behaviour of the external collaborators `createHost` calls, in call
order: the driver registry lookup, `def.Config`, `json.Marshal`,
`api.NewHost`, `api.Create` (as a finishing time and result, see
`timedCreateHost`), `postStartSetup`, and `saveHost`. -/
structure CreateEnv where
  driverRegistered : Bool
  configResult : Except GoError Unit
  marshalResult : Except GoError String
  newHostResult : Except GoError Host
  createBehavior : Option (Nat × Option GoError)
  postStartResult : Option GoError
  saveResult : Option GoError
  miniPath : String
  proxyEnv : List String
  deriving Repr

/-- Outcome of one `createHost` call: the returned host pointer (`none`
embeds Go's nil) and error. -/
structure CreateOutcome where
  host : Option Host
  err : Option GoError
  deriving Repr, DecidableEq

/-- `machine.createHost`: resolve the driver, build and marshal its
config, obtain a host from the API, install cert paths and engine
options, run the timed creation race, then post-start setup and
persistence.  A post-start or save failure returns the host handle
together with the error; every earlier failure returns a nil host. -/
def createHost (env : CreateEnv) (cfg : ClusterConfig) : CreateOutcome :=
  if !env.driverRegistered then
    { host := none, err := some (.errorf ("unsupported/missing driver: " ++ cfg.driver)) }
  else
    match env.configResult with
    | .error e => { host := none, err := wrap "config" (some e) }
    | .ok _ =>
        match env.marshalResult with
        | .error e => { host := none, err := wrap "marshal" (some e) }
        | .ok _ =>
            match env.newHostResult with
            | .error e => { host := none, err := wrap "new host" (some e) }
            | .ok h0 =>
                let h : Host :=
                  { h0 with
                    certDir := env.miniPath
                    storePath := env.miniPath
                    engineOpts := some (engineOptions env.proxyEnv cfg) }
                match timedCreateHost createHostTimeout env.createBehavior with
                | some e => { host := none, err := wrap "creating host" (some e) }
                | none =>
                    match env.postStartResult with
                    | some e => { host := some h, err := wrap "post-start" (some e) }
                    | none =>
                        match env.saveResult with
                        | some e => { host := some h, err := some e }
                        | none => { host := some h, err := none }

/-! ## StartHost (machine.StartHost, part_001 lines 66-98) -/

/-- Behaviour of the collaborators `StartHost` consults before choosing a
path: lock acquisition, `api.Exists`, the create path's environment, and
the outcome of `fixHost` (whose body lives outside the provided sources;
only its result is needed to count calls). -/
structure StartEnv where
  lockResult : Option GoError
  existsResult : Except GoError Bool
  createEnv : CreateEnv
  fixOutcome : CreateOutcome
  deriving Repr

/-- Outcome of one `StartHost` call, with instrumentation counting how
many times the create path (`createHost`) and the fix path (`fixHost`)
were invoked. -/
structure StartOutcome where
  host : Option Host
  existed : Bool
  err : Option GoError
  createCalls : Nat
  fixCalls : Nat
  deriving Repr, DecidableEq

/-- `machine.StartHost`: acquire the machines lock, query `api.Exists`,
then run exactly one of `createHost` (machine absent) or `fixHost`
(machine present), returning the chosen path's host and error together
with the pre-existence flag. -/
def StartHost (env : StartEnv) (cfg : ClusterConfig) (n : Node) : StartOutcome :=
  let _ := acquireMachinesLockSpec env.createEnv.miniPath (MachineName cfg n)
  match env.lockResult with
  | some e => { host := none, existed := false, err := wrap "boot lock" (some e)
                createCalls := 0, fixCalls := 0 }
  | none =>
      match env.existsResult with
      | .error e =>
          { host := none, existed := false
            err := wrap ("exists: " ++ MachineName cfg n) (some e)
            createCalls := 0, fixCalls := 0 }
      | .ok exists0 =>
          if !exists0 then
            let o := createHost env.createEnv cfg
            { host := o.host, existed := exists0, err := o.err
              createCalls := 1, fixCalls := 0 }
          else
            { host := env.fixOutcome.host, existed := exists0, err := env.fixOutcome.err
              createCalls := 0, fixCalls := 1 }

/-! ## KIC driver creation (pkg/drivers/kic/kic.go, Driver.Create lines
68-157)

The embedding keeps the container-name conflict handling and the
subsequent node preparation, with the external OCI calls as behaviour
parameters, and instruments the number of `oci.DeleteContainer` calls. -/

/-- Behaviour of the OCI collaborators `Driver.Create` calls:
`oci.ContainerExists` (Go returns the pair `(bool, error)` and the code
consults the bool even when the error is non-nil), ownership check
`oci.IsCreatedByMinikube`, `oci.DeleteContainer`,
`oci.PrepareContainerNode`, `oci.CreateContainerNode`, and
`Driver.prepareSSH`. -/
structure KicEnv where
  containerExists : Bool × Option GoError
  isCreatedByMinikube : Bool
  deleteResult : Option GoError
  prepareNodeResult : Option GoError
  createNodeResult : Option GoError
  prepareSSHResult : Option GoError
  deriving Repr

/-- Outcome of one `Driver.Create` call, instrumented with the number of
`oci.DeleteContainer` invocations. -/
structure KicCreateOutcome where
  err : Option GoError
  deleteCalls : Nat
  deriving Repr, DecidableEq

/-- `Driver.Create` of the kic driver, for a target container `name`.
If a container with the name exists and is minikube-owned it is deleted
(the delete error only logged) and creation proceeds; if it exists and is
NOT minikube-owned the function returns
`errors.Wrapf(err, "user has a conflicting container name %q ...")`
where `err` is the error half of the `oci.ContainerExists` result — so a
nil `err` makes the conflict branch return nil.  Otherwise the node is
prepared, created, and ssh is set up. -/
def kicCreate (env : KicEnv) (name : String) : KicCreateOutcome :=
  let exists0 := env.containerExists.1
  let cerr := env.containerExists.2
  let conflictMsg :=
    "user has a conflicting container name \"" ++ name ++
      "\" with minikube container. Needs to be deleted by user's consent."
  let afterConflict : Option KicCreateOutcome × Nat :=
    if exists0 then
      if env.isCreatedByMinikube then
        -- delete attempted; its error is only logged
        (none, 1)
      else
        (some { err := wrap conflictMsg cerr, deleteCalls := 0 }, 0)
    else (none, 0)
  match afterConflict with
  | (some out, _) => out
  | (none, dels) =>
      match env.prepareNodeResult with
      | some e => { err := wrap "setting up container node" (some e), deleteCalls := dels }
      | none =>
          match env.createNodeResult with
          | some e => { err := wrap "create kic node" (some e), deleteCalls := dels }
          | none =>
              match env.prepareSSHResult with
              | some e => { err := wrap "prepare kic ssh" (some e), deleteCalls := dels }
              | none => { err := none, deleteCalls := dels }

/-! ## KIC base images (part_002 lines 25-47) -/

/-- `kic.Version`. -/
def kicVersion : String := "v0.0.10"

/-- `kic.baseImageSHA`. -/
def baseImageSHA : String :=
  "f58e0c4662bac8a9b5dda7984b185bad8502ade5d9fa364bf2755d636ab51438"

/-- `kic.BaseImage`. -/
def BaseImage : String :=
  "registry.cn-hangzhou.aliyuncs.com/google_containers/kicbase:" ++ kicVersion ++
    "@sha256:" ++ baseImageSHA

/-- `kic.BaseImageFallBack1`. -/
def BaseImageFallBack1 : String :=
  "kicbase/stable:" ++ kicVersion ++ "@sha256:" ++ baseImageSHA

/-- `kic.BaseImageFallBack2`. -/
def BaseImageFallBack2 : String :=
  "docker.pkg.github.com/kubernetes/minikube/kicbase:" ++ kicVersion

/-! ## Artifact cache coordinator (part_000) -/

/-- The acquisition attempts and final result of the download task body
enqueued by `beginDownloadKicArtifacts` (part_000 lines 114-128):
`write` is the behaviour of `image.WriteImageToDaemon` on each reference.
The primary reference `cc.KicBaseImage` is tried first; on failure
`BaseImageFallBack1`, and on its failure `BaseImageFallBack2`, whose
result is returned. -/
def kicDownloadTask (write : String → Option GoError) (primary : String) :
    List String × Option GoError :=
  match write primary with
  | none => ([primary], none)
  | some _ =>
      match write BaseImageFallBack1 with
      | none => ([primary, BaseImageFallBack1], none)
      | some _ =>
          ([primary, BaseImageFallBack1, BaseImageFallBack2],
            write BaseImageFallBack2)

/-- `node.beginDownloadKicArtifacts` (part_000 lines 109-134): only for
the docker driver, and only when the base image is absent from the local
daemon (`image.ExistsImageInDaemon`), is the download task enqueued into
the group; otherwise nothing is enqueued.  Returns the enqueued task's
attempts and result, if any. -/
def beginDownloadKicArtifacts (existsInDaemon : String → Bool)
    (write : String → Option GoError) (cfg : ClusterConfig) :
    Option (List String × Option GoError) :=
  if cfg.driver = "docker" then
    if !existsInDaemon cfg.kicBaseImage then
      some (kicDownloadTask write cfg.kicBaseImage)
    else none
  else none

/-- What one `beginCacheKubernetesImages` call did: whether the preload
bundle was fetched synchronously inside the call, and whether a per-image
caching task was enqueued into the group. -/
structure CacheBeginResult where
  preloadFetched : Bool
  enqueued : Bool
  deriving Repr, DecidableEq

/-- `node.beginCacheKubernetesImages` (part_000 lines 48-70).
`preloadExists` is the behaviour of `download.PreloadExists`,
`preloadResult` of `download.Preload`, and `cacheEnabled` the viper
`cache-images` flag.  With no repository override and an available
preload, the preload is fetched synchronously; if that succeeds the call
returns without enqueuing.  In every other case a task is enqueued iff
image caching is enabled. -/
def beginCacheKubernetesImages (cacheEnabled : Bool)
    (preloadExists : String → String → Bool) (preloadResult : Option GoError)
    (imageRepository k8sVersion cRuntime : String) : CacheBeginResult :=
  if imageRepository = "" ∧ preloadExists k8sVersion cRuntime then
    match preloadResult with
    | none => { preloadFetched := true, enqueued := false }
    | some _ =>
        if !cacheEnabled then { preloadFetched := true, enqueued := false }
        else { preloadFetched := true, enqueued := true }
  else
    if !cacheEnabled then { preloadFetched := false, enqueued := false }
    else { preloadFetched := false, enqueued := true }

/-- `errgroup.Group.Wait` over a group whose tasks resolved to the given
results: returns the first non-nil task error, after all tasks have
resolved. -/
def errgroupWait (g : List (Option GoError)) : Option GoError :=
  g.findSome? id

/-- What one `waitCacheRequiredImages` call did: whether it joined the
group (so every task had resolved when it returned), which aggregated
error it logged, and the error it returned to its caller — the Go
function has no error result, so `returnedErr` is none on every path. -/
structure WaitCacheResult where
  waited : Bool
  logged : Option GoError
  returnedErr : Option GoError
  deriving Repr, DecidableEq

/-- `node.waitCacheRequiredImages` (part_000 lines 161-168): a no-op when
image caching is disabled; otherwise joins the group and logs (never
returns) the aggregated error. -/
def waitCacheRequiredImages (cacheEnabled : Bool) (g : List (Option GoError)) :
    WaitCacheResult :=
  if !cacheEnabled then { waited := false, logged := none, returnedErr := none }
  else { waited := true, logged := errgroupWait g, returnedErr := none }

/-! # Claim theorems -/

/-- C1: once the machines lock is acquired and `api.Exists` succeeds,
`StartHost` runs the create path exactly once and the fix path zero
times and returns `existed = false` when the machine does not exist, and
runs the create path zero times and returns `existed = true` when it
does. -/
theorem startHost_create_fix_dichotomy (env : StartEnv) (cfg : ClusterConfig)
    (n : Node) (b : Bool) (hlock : env.lockResult = none)
    (hex : env.existsResult = .ok b) :
    (b = false →
        (StartHost env cfg n).createCalls = 1 ∧
        (StartHost env cfg n).fixCalls = 0 ∧
        (StartHost env cfg n).existed = false) ∧
    (b = true →
        (StartHost env cfg n).createCalls = 0 ∧
        (StartHost env cfg n).existed = true) := by
  constructor
  · intro hb
    subst hb
    simp [StartHost, hlock, hex]
  · intro hb
    subst hb
    simp [StartHost, hlock, hex]

/-- Witness for C1: a concrete environment exercising both branches of
`startHost_create_fix_dichotomy`. -/
theorem startHost_create_fix_dichotomy_witness :
    (StartHost
        { lockResult := none, existsResult := .ok false
          createEnv :=
            { driverRegistered := true, configResult := .ok ()
              marshalResult := .ok "{}", newHostResult := .error (.errorf "boom")
              createBehavior := none, postStartResult := none, saveResult := none
              miniPath := "/root/.minikube", proxyEnv := [] }
          fixOutcome := { host := none, err := none } }
        { name := "minikube", driver := "docker", dockerEnv := []
          insecureRegistry := [], registryMirror := [], dockerOpt := []
          kicBaseImage := BaseImage }
        { name := "m01", controlPlane := true }).createCalls = 1 ∧
      (StartHost
        { lockResult := none, existsResult := .ok false
          createEnv :=
            { driverRegistered := true, configResult := .ok ()
              marshalResult := .ok "{}", newHostResult := .error (.errorf "boom")
              createBehavior := none, postStartResult := none, saveResult := none
              miniPath := "/root/.minikube", proxyEnv := [] }
          fixOutcome := { host := none, err := none } }
        { name := "minikube", driver := "docker", dockerEnv := []
          insecureRegistry := [], registryMirror := [], dockerOpt := []
          kicBaseImage := BaseImage }
        { name := "m01", controlPlane := true }).fixCalls = 0 ∧
      (StartHost
        { lockResult := none, existsResult := .ok false
          createEnv :=
            { driverRegistered := true, configResult := .ok ()
              marshalResult := .ok "{}", newHostResult := .error (.errorf "boom")
              createBehavior := none, postStartResult := none, saveResult := none
              miniPath := "/root/.minikube", proxyEnv := [] }
          fixOutcome := { host := none, err := none } }
        { name := "minikube", driver := "docker", dockerEnv := []
          insecureRegistry := [], registryMirror := [], dockerOpt := []
          kicBaseImage := BaseImage }
        { name := "m01", controlPlane := true }).existed = false :=
  (startHost_create_fix_dichotomy _ _ _ false rfl rfl).1 rfl

/-- C2 (code bug evidence): when a container with the target name exists
(`oci.ContainerExists` returns `(true, nil)`) and is not minikube-owned,
`Driver.Create` calls no delete, but returns `errors.Wrapf(nil, ...)`,
which is a nil error — it does not surface a conflict error at all. -/
theorem kicCreate_conflict_returns_nil_error :
    (kicCreate
        { containerExists := (true, none), isCreatedByMinikube := false
          deleteResult := none, prepareNodeResult := none
          createNodeResult := none, prepareSSHResult := none }
        "minikube").err = none ∧
    (kicCreate
        { containerExists := (true, none), isCreatedByMinikube := false
          deleteResult := none, prepareNodeResult := none
          createNodeResult := none, prepareSSHResult := none }
        "minikube").deleteCalls = 0 := by
  constructor <;> rfl

/-- C3 (counterexample): two distinct machine names yield the very same
on-disk lock specification, refuting "distinct machine names use distinct
lock keys". -/
theorem machinesLock_distinct_names_same_spec :
    acquireMachinesLockSpec "/root/.minikube" "cluster-a" =
      acquireMachinesLockSpec "/root/.minikube" "cluster-b-m02" ∧
    "cluster-a" ≠ "cluster-b-m02" := by
  constructor
  · rfl
  · decide

/-- C3 (amended): the lock specification built by `acquireMachinesLock`
does not depend on the machine name at all — it is keyed by the constant
path `MiniPath()/machines` with a 15-minute timeout, so every StartHost
call on the same minikube home contends on one and the same lock. -/
theorem machinesLock_spec_independent_of_name (miniPath a b : String) :
    acquireMachinesLockSpec miniPath a = acquireMachinesLockSpec miniPath b ∧
    (acquireMachinesLockSpec miniPath a).path = miniPath ++ "/machines" ∧
    (acquireMachinesLockSpec miniPath a).timeoutSeconds = 15 * 60 := by
  refine ⟨rfl, rfl, rfl⟩

/-- C4: the creation call is raced against a fixed-ceiling timer and
whichever resolves first decides the outcome: a creation that never
returns, or returns no earlier than the ceiling, yields the timeout
error; a creation finishing strictly earlier yields its own (wrapped)
result; and the timeout error is distinct from every error the creation
branch can return.  `createHost` uses the ceiling `createHostTimeout`
(4 minutes) and wraps a timed-out creation as "creating host". -/
theorem timedCreateHost_race (t d : Nat) (r : Option GoError) :
    timedCreateHost t none = some (createTimeoutErr t) ∧
    (t ≤ d → timedCreateHost t (some (d, r)) = some (createTimeoutErr t)) ∧
    (d < t → timedCreateHost t (some (d, r)) = wrap "create" r) ∧
    (∀ e : GoError, createTimeoutErr t ≠ .wrapped "create" e) ∧
    (∀ env : CreateEnv, ∀ cfg : ClusterConfig, ∀ s : String, ∀ h0 : Host,
      env.driverRegistered = true → env.configResult = .ok () →
      env.marshalResult = .ok s → env.newHostResult = .ok h0 →
      env.createBehavior = none →
      (createHost env cfg).err =
        some (.wrapped "creating host" (createTimeoutErr createHostTimeout))) := by
  refine ⟨rfl, ?_, ?_, ?_, ?_⟩
  · intro hle
    simp [timedCreateHost, Nat.not_lt.mpr hle]
  · intro hlt
    simp [timedCreateHost, hlt]
  · intro e
    simp [createTimeoutErr]
  · intro env cfg s h0 hdrv hcfg hmar hnew hbeh
    simp [createHost, hdrv, hcfg, hmar, hnew, hbeh, timedCreateHost]

/-- Witness for C4: the race at the concrete ceiling of 240 seconds with
a creation finishing at 300 seconds resolves to the timeout error. -/
theorem timedCreateHost_race_witness :
    timedCreateHost 240 (some (300, none)) = some (createTimeoutErr 240) :=
  (timedCreateHost_race 240 300 none).2.1 (by decide)

/-- C5: the env deduplication used by `engineOptions` is exactly `dedup`;
`dedup` is idempotent, keeps at most as many entries, is an
order-preserving sublist of its input with no duplicates and the same
membership, and keeps the first occurrence of every entry (the head
survives and only its later duplicates are filtered from the tail). -/
theorem dedup_engine_env_spec (xs proxyEnv : List String) (cfg : ClusterConfig)
    (x : String) (ys : List String) :
    (engineOptions proxyEnv cfg).env = dedup (proxyEnv ++ cfg.dockerEnv) ∧
    dedup (dedup xs) = dedup xs ∧
    (dedup xs).length ≤ xs.length ∧
    (dedup xs).Sublist xs ∧
    (dedup xs).Nodup ∧
    (∀ a, a ∈ dedup xs ↔ a ∈ xs) ∧
    dedup (x :: ys) = x :: (dedup ys).filter (fun a => decide (a ≠ x)) :=
  ⟨rfl, dedup_idempotent xs, dedup_length_le xs, dedup_sublist xs,
    dedupSeen_nodup xs [], fun _ => mem_dedup, dedup_cons x ys⟩

/-- C6: a download task enqueued for an absent base image attempts the
references in the fixed order primary → fallback 1 → fallback 2; when the
primary and the first fallback fail, exactly those three acquisitions are
attempted in order and the task succeeds iff the third succeeds. -/
theorem kicDownload_fallback_order (write : String → Option GoError)
    (existsInDaemon : String → Bool) (cfg : ClusterConfig)
    (hdrv : cfg.driver = "docker")
    (habsent : existsInDaemon cfg.kicBaseImage = false)
    (hp : write cfg.kicBaseImage ≠ none)
    (hf1 : write BaseImageFallBack1 ≠ none) :
    beginDownloadKicArtifacts existsInDaemon write cfg =
      some (kicDownloadTask write cfg.kicBaseImage) ∧
    (kicDownloadTask write cfg.kicBaseImage).1 =
      [cfg.kicBaseImage, BaseImageFallBack1, BaseImageFallBack2] ∧
    ((kicDownloadTask write cfg.kicBaseImage).2 = none ↔
      write BaseImageFallBack2 = none) := by
  rcases hpe : write cfg.kicBaseImage with _ | e1
  · exact absurd hpe hp
  rcases hf1e : write BaseImageFallBack1 with _ | e2
  · exact absurd hf1e hf1
  refine ⟨?_, ?_, ?_⟩
  · simp [beginDownloadKicArtifacts, hdrv, habsent]
  · simp [kicDownloadTask, hpe, hf1e]
  · simp [kicDownloadTask, hpe, hf1e]

/-- Witness for C6: with a primary and first fallback that fail and a
second fallback that succeeds, the three references are attempted in
order and the task succeeds. -/
theorem kicDownload_fallback_order_witness :
    (kicDownloadTask
        (fun s => if s = BaseImageFallBack2 then none else some (.errorf "pull failed"))
        BaseImage).1 = [BaseImage, BaseImageFallBack1, BaseImageFallBack2] ∧
    (kicDownloadTask
        (fun s => if s = BaseImageFallBack2 then none else some (.errorf "pull failed"))
        BaseImage).2 = none := by
  have h := kicDownload_fallback_order
    (fun s => if s = BaseImageFallBack2 then none else some (.errorf "pull failed"))
    (fun _ => false)
    { name := "minikube", driver := "docker", dockerEnv := []
      insecureRegistry := [], registryMirror := [], dockerOpt := []
      kicBaseImage := BaseImage }
    rfl rfl (by decide) (by decide)
  exact ⟨h.2.1, h.2.2.mpr (by decide)⟩

/-- C7: with an empty image-repository override and an existing preload
bundle, `beginCacheKubernetesImages` fetches the preload synchronously
and, when the fetch succeeds, enqueues nothing; in every other case
(override set, no preload bundle, or preload fetch failure) a per-image
caching task is enqueued iff image caching is enabled. -/
theorem beginCacheKubernetesImages_spec (cacheEnabled : Bool)
    (preloadExists : String → String → Bool) (preloadResult : Option GoError)
    (repo v r : String) :
    (repo = "" → preloadExists v r = true →
        (beginCacheKubernetesImages cacheEnabled preloadExists preloadResult
            repo v r).preloadFetched = true ∧
        (preloadResult = none →
          (beginCacheKubernetesImages cacheEnabled preloadExists preloadResult
              repo v r).enqueued = false)) ∧
    (¬ (repo = "" ∧ preloadExists v r = true) ∨ preloadResult ≠ none →
        (beginCacheKubernetesImages cacheEnabled preloadExists preloadResult
            repo v r).enqueued = cacheEnabled) := by
  constructor
  · intro hrepo hpre
    constructor
    · rcases preloadResult with _ | e
      · simp [beginCacheKubernetesImages, hrepo, hpre]
      · rcases cacheEnabled with _ | _ <;>
          simp [beginCacheKubernetesImages, hrepo, hpre]
    · intro hok
      subst hok
      simp [beginCacheKubernetesImages, hrepo, hpre]
  · intro hother
    rcases hother with hno | hfail
    · have : ¬ (repo = "" ∧ (preloadExists v r) = true) := hno
      rcases cacheEnabled with _ | _ <;>
        · simp only [beginCacheKubernetesImages]
          rw [if_neg this]
          simp
    · rcases hfe : preloadResult with _ | e
      · exact absurd hfe hfail
      by_cases hcond : repo = "" ∧ preloadExists v r = true
      · rcases cacheEnabled with _ | _ <;>
          simp [beginCacheKubernetesImages, hcond.1, hcond.2, hfe]
      · rcases cacheEnabled with _ | _ <;>
          · simp only [beginCacheKubernetesImages]
            rw [if_neg hcond]
            simp

/-- Witness for C7: empty override, preload available and fetched
successfully — nothing is enqueued even though caching is enabled. -/
theorem beginCacheKubernetesImages_spec_witness :
    (beginCacheKubernetesImages true (fun _ _ => true) none
        "" "v1.18.0" "docker").preloadFetched = true ∧
    (beginCacheKubernetesImages true (fun _ _ => true) none
        "" "v1.18.0" "docker").enqueued = false := by
  have h := (beginCacheKubernetesImages_spec true (fun _ _ => true) none
    "" "v1.18.0" "docker").1 rfl rfl
  exact ⟨h.1, h.2 rfl⟩

/-- C8: `waitCacheRequiredImages` never returns an error to its caller;
whenever the group can be non-empty (tasks are enqueued only with image
caching enabled, as the conjunct about `beginCacheKubernetesImages`
records) it joins the whole group, and the aggregated first failure is
logged only. -/
theorem waitCacheRequiredImages_best_effort (cacheEnabled : Bool)
    (g : List (Option GoError)) (hne : g ≠ [] → cacheEnabled = true) :
    (waitCacheRequiredImages cacheEnabled g).returnedErr = none ∧
    (g ≠ [] → (waitCacheRequiredImages cacheEnabled g).waited = true) ∧
    (cacheEnabled = true →
      (waitCacheRequiredImages cacheEnabled g).logged = errgroupWait g) ∧
    (∀ preloadExists preloadResult repo v r,
      (beginCacheKubernetesImages cacheEnabled preloadExists preloadResult
          repo v r).enqueued = true → cacheEnabled = true) := by
  refine ⟨?_, ?_, ?_, ?_⟩
  · rcases cacheEnabled with _ | _ <;> simp [waitCacheRequiredImages]
  · intro hg
    rw [hne hg]
    simp [waitCacheRequiredImages]
  · intro hc
    subst hc
    simp [waitCacheRequiredImages]
  · intro preloadExists preloadResult repo v r henq
    rcases cacheEnabled with _ | _
    · exfalso
      revert henq
      simp only [beginCacheKubernetesImages]
      by_cases hcond : repo = "" ∧ preloadExists v r = true
      · rw [if_pos hcond]
        rcases preloadResult with _ | e <;> simp
      · rw [if_neg hcond]
        simp
    · rfl

/-- Witness for C8: the scenario of a group with one failing and one
succeeding task — the call returns no error and the failure is logged. -/
theorem waitCacheRequiredImages_best_effort_witness :
    (waitCacheRequiredImages true [some (.errorf "pull failed"), none]).returnedErr
        = none ∧
    (waitCacheRequiredImages true [some (.errorf "pull failed"), none]).waited
        = true ∧
    (waitCacheRequiredImages true [some (.errorf "pull failed"), none]).logged
        = some (.errorf "pull failed") := by
  have h := waitCacheRequiredImages_best_effort true
    [some (.errorf "pull failed"), none] (fun _ => rfl)
  exact ⟨h.1, h.2.1 (by simp), (h.2.2.1 rfl).trans rfl⟩

/-- C9: when the backend unit is created successfully but post-start
setup fails, the create path — and hence `StartHost` on the
machine-absent branch — returns the partially created host handle
(non-nil) together with the post-start error wrapped as "post-start". -/
theorem startHost_postStart_failure_keeps_host (env : StartEnv)
    (cfg : ClusterConfig) (n : Node) (s : String) (h0 : Host) (e : GoError)
    (hlock : env.lockResult = none) (hex : env.existsResult = .ok false)
    (hdrv : env.createEnv.driverRegistered = true)
    (hcfg : env.createEnv.configResult = .ok ())
    (hmar : env.createEnv.marshalResult = .ok s)
    (hnew : env.createEnv.newHostResult = .ok h0)
    (hcreate : timedCreateHost createHostTimeout env.createEnv.createBehavior = none)
    (hpost : env.createEnv.postStartResult = some e) :
    (StartHost env cfg n).host.isSome = true ∧
    (StartHost env cfg n).err = some (.wrapped "post-start" e) := by
  constructor <;>
    simp [StartHost, createHost, hlock, hex, hdrv, hcfg, hmar, hnew, hcreate, hpost]

/-- Witness for C9: a concrete run where creation finishes in time and
post-start fails — the host handle survives alongside the wrapped
error. -/
theorem startHost_postStart_failure_keeps_host_witness :
    (StartHost
        { lockResult := none, existsResult := .ok false
          createEnv :=
            { driverRegistered := true, configResult := .ok ()
              marshalResult := .ok "{}"
              newHostResult := .ok
                { name := "minikube", certDir := "", storePath := ""
                  engineOpts := none }
              createBehavior := some (30, none)
              postStartResult := some (.errorf "command runner")
              saveResult := none
              miniPath := "/root/.minikube", proxyEnv := [] }
          fixOutcome := { host := none, err := none } }
        { name := "minikube", driver := "docker", dockerEnv := []
          insecureRegistry := [], registryMirror := [], dockerOpt := []
          kicBaseImage := BaseImage }
        { name := "m01", controlPlane := true }).host.isSome = true ∧
    (StartHost
        { lockResult := none, existsResult := .ok false
          createEnv :=
            { driverRegistered := true, configResult := .ok ()
              marshalResult := .ok "{}"
              newHostResult := .ok
                { name := "minikube", certDir := "", storePath := ""
                  engineOpts := none }
              createBehavior := some (30, none)
              postStartResult := some (.errorf "command runner")
              saveResult := none
              miniPath := "/root/.minikube", proxyEnv := [] }
          fixOutcome := { host := none, err := none } }
        { name := "minikube", driver := "docker", dockerEnv := []
          insecureRegistry := [], registryMirror := [], dockerOpt := []
          kicBaseImage := BaseImage }
        { name := "m01", controlPlane := true }).err =
      some (.wrapped "post-start" (.errorf "command runner")) :=
  startHost_postStart_failure_keeps_host _ _ _ "{}"
    { name := "minikube", certDir := "", storePath := "", engineOpts := none }
    (.errorf "command runner") rfl rfl rfl rfl rfl rfl (by decide) rfl

/-- C10: the engine options built for the unit's container engine always
carry the default service CIDR as the first insecure-registry entry, with
the configuration's own entries appended after it in their original
order. -/
theorem engineOptions_insecureRegistry_head (proxyEnv : List String)
    (cfg : ClusterConfig) :
    (engineOptions proxyEnv cfg).insecureRegistry =
      DefaultServiceCIDR :: cfg.insecureRegistry := rfl

end Minikube
